import Mathlib

/-
Verification of libs/hwui/Program.h (android_frameworks_base, hwui renderer).

The header declares a Program class (compiled GL shader program with
pointer-keyed attribute/uniform slot caches and an in-use flag) and a
hierarchy of fixed-slot variants (DrawColorProgram, DrawTextureProgram,
DrawTextProgram, DrawLinearGradientProgram).  The shallow embedding below
models the GL driver as an oracle, records every driver call in an explicit
log, and passes program state explicitly.  Method bodies that live in the
(absent) Program.cpp are modelled from the specification, as marked on each
definition.
-/

set_option autoImplicit false

namespace Uirenderer

/-- A C string pointer as the caches key it: an address (identity) plus the
text stored there.  Two pointers with equal content may live at distinct
addresses. -/
structure CharPtr where
  addr : Nat
  content : String
deriving DecidableEq, Repr

/-- The two shader stages of a program. -/
inductive ShaderStage where
  | vertex
  | fragment
deriving DecidableEq, Repr

/-- One call issued to the external GL driver (the narrow interface of §6 of
the design: compile, link, bind, location queries, attrib-array toggles,
deletes). -/
inductive GLCall where
  | compileShader (stage : ShaderStage) (source : String)
  | linkProgram (vertexShader fragmentShader : Nat)
  | useProgram (id : Nat)
  | getAttribLocation (id : Nat) (name : String)
  | getUniformLocation (id : Nat) (name : String)
  | enableVertexAttribArray (slot : Int)
  | disableVertexAttribArray (slot : Int)
  | deleteShader (handle : Nat)
  | deleteProgram (handle : Nat)
deriving DecidableEq, Repr

/-- The GL driver as a deterministic oracle: results of compiling, linking
and of the by-name location queries.  Location queries read the string
content, not the pointer; a query may return the not-found sentinel -1. -/
structure Driver where
  compileResult : ShaderStage → String → Except String Nat
  linkResult : Nat → Nat → Except String Nat
  attribLoc : Nat → String → Int
  uniformLoc : Nat → String → Int

/-- Lookup in a KeyedVector<const char*, int>: keys are the raw pointers,
compared by address. -/
def findSlot (cache : List (CharPtr × Int)) (a : Nat) : Option Int :=
  match cache with
  | [] => none
  | (k, v) :: rest => if k.addr = a then some v else findSlot rest a

/-- KeyedVector<const char*, int>.add: replace the entry whose key has the
same address, or append a fresh entry. -/
def setSlot (cache : List (CharPtr × Int)) (k : CharPtr) (v : Int) :
    List (CharPtr × Int) :=
  match cache with
  | [] => [(k, v)]
  | (k', v') :: rest =>
      if k'.addr = k.addr then (k, v) :: rest else (k', v') :: setSlot rest k v

/-- State of a Program object: the GL program and shader handles, the two
pointer-keyed slot caches (KeyedVector<const char*, int> attributes and
uniforms) and the mUse flag, exactly the fields of the class. -/
structure Program where
  id : Nat
  vertexShader : Nat
  fragmentShader : Nat
  attributes : List (CharPtr × Int)
  uniforms : List (CharPtr × Int)
  mUse : Bool
deriving DecidableEq, Repr

/-- The possible failures of program construction (§7 of the design). -/
inductive CompileError where
  | shaderCompileError (stage : ShaderStage) (log : String)
  | shaderLinkError (log : String)
deriving DecidableEq, Repr

/-- Modelled from the spec: the Program(vertex, fragment) constructor whose
body (Program.cpp) is not in the sources.  Compiles each stage, failing with
ShaderCompileError carrying the stage and the driver log if either stage
fails; links only when both stages succeeded, failing with ShaderLinkError
and the link log otherwise; on success yields the program with the returned
handles, empty slot caches and mUse false, together with the driver calls
issued. -/
def Program.compile (d : Driver) (vertex fragment : String) :
    Except CompileError (Program × List GLCall) :=
  match d.compileResult .vertex vertex with
  | .error log => .error (.shaderCompileError .vertex log)
  | .ok vs =>
    match d.compileResult .fragment fragment with
    | .error log => .error (.shaderCompileError .fragment log)
    | .ok fs =>
      match d.linkResult vs fs with
      | .error log => .error (.shaderLinkError log)
      | .ok pid =>
        .ok ({ id := pid, vertexShader := vs, fragmentShader := fs,
               attributes := [], uniforms := [], mUse := false },
             [.compileShader .vertex vertex, .compileShader .fragment fragment,
              .linkProgram vs fs])

/-- A program state as it is right after a successful construction: given
handles, empty caches, not in use. -/
def freshProgram (pid vs fs : Nat) : Program :=
  { id := pid, vertexShader := vs, fragmentShader := fs,
    attributes := [], uniforms := [], mUse := false }

/-- Program::isInUse, inline in the header: pure read of the mUse flag. -/
def Program.isInUse (p : Program) : Bool :=
  p.mUse

/-- Modelled from the spec: Program::use (body not in the sources).  If not
already in use, binds the program on the context and sets the flag; while
already in use it is a no-op. -/
def Program.use (p : Program) : Program × List GLCall :=
  if p.mUse then (p, [])
  else ({ p with mUse := true }, [.useProgram p.id])

/-- Modelled from the spec: Program::remove (body not in the sources).  Only
clears the in-use flag; issues no driver call and does not unbind. -/
def Program.remove (p : Program) : Program × List GLCall :=
  ({ p with mUse := false }, [])

/-- Modelled from the spec: Program::addAttrib (body not in the sources).
Queries the driver for the attribute location of the name and stores the
result — sentinel included — in the attribute cache under the pointer. -/
def Program.addAttrib (d : Driver) (p : Program) (n : CharPtr) :
    Int × Program × List GLCall :=
  let slot := d.attribLoc p.id n.content
  (slot, { p with attributes := setSlot p.attributes n slot },
   [.getAttribLocation p.id n.content])

/-- Modelled from the spec: Program::getAttrib (body not in the sources).
Returns the cached slot when the pointer is a key of the attribute cache;
otherwise resolves through addAttrib. -/
def Program.getAttrib (d : Driver) (p : Program) (n : CharPtr) :
    Int × Program × List GLCall :=
  match findSlot p.attributes n.addr with
  | some slot => (slot, p, [])
  | none => Program.addAttrib d p n

/-- Modelled from the spec: Program::addUniform (body not in the sources). -/
def Program.addUniform (d : Driver) (p : Program) (n : CharPtr) :
    Int × Program × List GLCall :=
  let slot := d.uniformLoc p.id n.content
  (slot, { p with uniforms := setSlot p.uniforms n slot },
   [.getUniformLocation p.id n.content])

/-- Modelled from the spec: Program::getUniform (body not in the sources). -/
def Program.getUniform (d : Driver) (p : Program) (n : CharPtr) :
    Int × Program × List GLCall :=
  match findSlot p.uniforms n.addr with
  | some slot => (slot, p, [])
  | none => Program.addUniform d p n

/-- The pointer of the string literal "position" in the translation unit. -/
def positionName : CharPtr := ⟨1, "position"⟩

/-- The pointer of the string literal "color". -/
def colorName : CharPtr := ⟨2, "color"⟩

/-- The pointer of the string literal "projection". -/
def projectionName : CharPtr := ⟨3, "projection"⟩

/-- The pointer of the string literal "modelView". -/
def modelViewName : CharPtr := ⟨4, "modelView"⟩

/-- The pointer of the string literal "transform". -/
def transformName : CharPtr := ⟨5, "transform"⟩

/-- The pointer of the string literal "sampler". -/
def samplerName : CharPtr := ⟨6, "sampler"⟩

/-- The pointer of the string literal "texCoords". -/
def texCoordsName : CharPtr := ⟨7, "texCoords"⟩

/-- The pointer of the string literal "screenSpace". -/
def screenSpaceName : CharPtr := ⟨8, "screenSpace"⟩

/-- The pointer of the string literal "start". -/
def startName : CharPtr := ⟨9, "start"⟩

/-- The pointer of the string literal "gradient". -/
def gradientName : CharPtr := ⟨10, "gradient"⟩

/-- The pointer of the string literal "gradientLength". -/
def gradientLengthName : CharPtr := ⟨11, "gradientLength"⟩

/-- DrawColorProgram state: the base program plus the slot fields the header
declares (position, color, transform). -/
structure DrawColorProgram where
  base : Program
  position : Int
  color : Int
  transform : Int
deriving DecidableEq, Repr

/-- Modelled from the spec: DrawColorProgram::getAttribsAndUniforms, run by
the constructor (body not in the sources).  Resolves attribute position,
attribute color and uniforms projection, modelView and transform; position,
color and transform are kept in the fields the header declares, the other
resolved slots stay in the caches. -/
def DrawColorProgram.construct (d : Driver) (p : Program) :
    DrawColorProgram × List GLCall :=
  let (pos, p₁, l₁) := Program.getAttrib d p positionName
  let (col, p₂, l₂) := Program.getAttrib d p₁ colorName
  let (_, p₃, l₃) := Program.getUniform d p₂ projectionName
  let (_, p₄, l₄) := Program.getUniform d p₃ modelViewName
  let (tr, p₅, l₅) := Program.getUniform d p₄ transformName
  (⟨p₅, pos, col, tr⟩, l₁ ++ l₂ ++ l₃ ++ l₄ ++ l₅)

/-- Modelled from the spec: DrawColorProgram::use (body not in the sources).
Invokes the base binding, then enables the vertex-attribute arrays for
position and color. -/
def DrawColorProgram.use (c : DrawColorProgram) :
    DrawColorProgram × List GLCall :=
  let (p, l) := c.base.use
  ({ c with base := p },
   l ++ [.enableVertexAttribArray c.position, .enableVertexAttribArray c.color])

/-- Modelled from the spec: DrawColorProgram::remove (body not in the
sources).  Disables the position and color vertex-attribute arrays, clears
the in-use flag via the base remove, performs no unbind. -/
def DrawColorProgram.remove (c : DrawColorProgram) :
    DrawColorProgram × List GLCall :=
  let (p, l) := c.base.remove
  ({ c with base := p },
   [.disableVertexAttribArray c.position, .disableVertexAttribArray c.color] ++ l)

/-- DrawTextureProgram state: a DrawColorProgram plus the sampler and
texCoords slot fields the header declares. -/
structure DrawTextureProgram where
  toColor : DrawColorProgram
  sampler : Int
  texCoords : Int
deriving DecidableEq, Repr

/-- Modelled from the spec: DrawTextureProgram construction (body not in the
sources).  Runs the DrawColorProgram slot resolution, then additionally
resolves the sampler uniform and the texCoords attribute. -/
def DrawTextureProgram.construct (d : Driver) (p : Program) :
    DrawTextureProgram × List GLCall :=
  let (c, l₀) := DrawColorProgram.construct d p
  let (s, p₁, l₁) := Program.getUniform d c.base samplerName
  let (t, p₂, l₂) := Program.getAttrib d p₁ texCoordsName
  (⟨{ c with base := p₂ }, s, t⟩, l₀ ++ l₁ ++ l₂)

/-- Modelled from the spec: DrawTextureProgram::use — the parent use, then
enable the texCoords attribute array. -/
def DrawTextureProgram.use (t : DrawTextureProgram) :
    DrawTextureProgram × List GLCall :=
  let (c, l) := t.toColor.use
  ({ t with toColor := c }, l ++ [.enableVertexAttribArray t.texCoords])

/-- Modelled from the spec: DrawTextureProgram::remove — disable texCoords,
then the parent remove. -/
def DrawTextureProgram.remove (t : DrawTextureProgram) :
    DrawTextureProgram × List GLCall :=
  let (c, l) := t.toColor.remove
  ({ t with toColor := c }, [.disableVertexAttribArray t.texCoords] ++ l)

/-- Modelled from the spec: DrawTextProgram construction — identical slot
set to DrawTextureProgram, differing only in which shader source pair it was
compiled from (a choice made before this step). -/
def DrawTextProgram.construct (d : Driver) (p : Program) :
    DrawTextureProgram × List GLCall :=
  DrawTextureProgram.construct d p

/-- DrawLinearGradientProgram state: a DrawColorProgram plus the slot fields
the header declares (screenSpace, start, gradient, gradientLength,
sampler). -/
structure DrawLinearGradientProgram where
  toColor : DrawColorProgram
  screenSpace : Int
  start : Int
  gradient : Int
  gradientLength : Int
  sampler : Int
deriving DecidableEq, Repr

/-- Modelled from the spec: DrawLinearGradientProgram construction (body not
in the sources).  Runs the DrawColorProgram slot resolution, then resolves
the uniforms screenSpace, start, gradient, gradientLength and sampler. -/
def DrawLinearGradientProgram.construct (d : Driver) (p : Program) :
    DrawLinearGradientProgram × List GLCall :=
  let (c, l₀) := DrawColorProgram.construct d p
  let (ss, p₁, l₁) := Program.getUniform d c.base screenSpaceName
  let (st, p₂, l₂) := Program.getUniform d p₁ startName
  let (g, p₃, l₃) := Program.getUniform d p₂ gradientName
  let (gl, p₄, l₄) := Program.getUniform d p₃ gradientLengthName
  let (s, p₅, l₅) := Program.getUniform d p₄ samplerName
  (⟨{ c with base := p₅ }, ss, st, g, gl, s⟩, l₀ ++ l₁ ++ l₂ ++ l₃ ++ l₄ ++ l₅)

/-- The contents (names) of both slot caches of a program: which attribute
and uniform names have been resolved. -/
def resolvedNames (p : Program) : List String :=
  p.attributes.map (fun e => e.1.content) ++ p.uniforms.map (fun e => e.1.content)

/-- Modelled from the spec: the Program destructor (body not in the
sources), run when the last shared owner releases: deletes the two shader
handles and the program handle. -/
def Program.destroy (p : Program) : List GLCall :=
  [.deleteShader p.vertexShader, .deleteShader p.fragmentShader,
   .deleteProgram p.id]

/-- Modelled from the spec: LightRefBase<Program> shared ownership
(utils/RefBase.h is not in the sources): a program together with its strong
reference count. -/
structure SharedProgram where
  prog : Program
  refCount : Nat
deriving DecidableEq, Repr

/-- Modelled from the spec: taking another shared reference. -/
def SharedProgram.acquire (s : SharedProgram) : SharedProgram :=
  { s with refCount := s.refCount + 1 }

/-- Modelled from the spec: one owner releasing its reference.  While other
owners remain the count drops and no driver call is issued; the last release
destroys the object, deleting the GPU handles. -/
def SharedProgram.release (s : SharedProgram) :
    Option SharedProgram × List GLCall :=
  if s.refCount ≤ 1 then (none, s.prog.destroy)
  else (some { s with refCount := s.refCount - 1 }, [])

/-- A concrete driver on which every stage compiles, the link succeeds and
every location query resolves. -/
def okDriver : Driver where
  compileResult := fun stage _ =>
    .ok (match stage with | .vertex => 1 | .fragment => 2)
  linkResult := fun _ _ => .ok 9
  attribLoc := fun _ _ => 3
  uniformLoc := fun _ _ => 4

theorem findSlot_setSlot (c : List (CharPtr × Int)) (k : CharPtr) (v : Int) :
    findSlot (setSlot c k v) k.addr = some v := by
  induction c with
  | nil => simp [setSlot, findSlot]
  | cons hd tl ih =>
    obtain ⟨k', v'⟩ := hd
    by_cases h : k'.addr = k.addr
    · simp [setSlot, findSlot, h]
    · simp [setSlot, findSlot, h, ih]

/-- C1: once a name has been resolved by getAttrib or getUniform, a
subsequent lookup of the same name returns the identical cached slot value,
leaves the caches unchanged and issues no driver call — so the driver
location query runs at most once per name. -/
theorem getAttrib_getUniform_memoized (d : Driver) (p : Program) (n : CharPtr) :
    Program.getAttrib d (Program.getAttrib d p n).2.1 n
      = ((Program.getAttrib d p n).1, (Program.getAttrib d p n).2.1, []) ∧
    Program.getUniform d (Program.getUniform d p n).2.1 n
      = ((Program.getUniform d p n).1, (Program.getUniform d p n).2.1, []) := by
  constructor
  · cases h : findSlot p.attributes n.addr with
    | some slot => simp [Program.getAttrib, h]
    | none => simp [Program.getAttrib, Program.addAttrib, h, findSlot_setSlot]
  · cases h : findSlot p.uniforms n.addr with
    | some slot => simp [Program.getUniform, h]
    | none => simp [Program.getUniform, Program.addUniform, h, findSlot_setSlot]

/-- C2: the caches are keyed by the raw pointer value, not by string
content.  On a fresh program, a first getAttrib (resp. getUniform) on a
pointer issues a driver query; a repeat with the same pointer is a cache
hit with no query; a call with a second pointer of equal content at a
distinct address issues its own driver query and appends its own cache
entry. -/
theorem cache_keyed_by_pointer (d : Driver) (pid vs fs : Nat) (n₁ n₂ : CharPtr)
    (haddr : n₁.addr ≠ n₂.addr) (hcontent : n₁.content = n₂.content) :
    (Program.getAttrib d (freshProgram pid vs fs) n₁).2.2
      = [.getAttribLocation pid n₁.content] ∧
    Program.getAttrib d (Program.getAttrib d (freshProgram pid vs fs) n₁).2.1 n₁
      = ((Program.getAttrib d (freshProgram pid vs fs) n₁).1,
         (Program.getAttrib d (freshProgram pid vs fs) n₁).2.1, []) ∧
    (Program.getAttrib d (Program.getAttrib d (freshProgram pid vs fs) n₁).2.1 n₂).2.2
      = [.getAttribLocation pid n₂.content] ∧
    (Program.getAttrib d (Program.getAttrib d (freshProgram pid vs fs) n₁).2.1 n₂).2.1.attributes
      = [(n₁, d.attribLoc pid n₁.content), (n₂, d.attribLoc pid n₂.content)] ∧
    (Program.getUniform d (freshProgram pid vs fs) n₁).2.2
      = [.getUniformLocation pid n₁.content] ∧
    Program.getUniform d (Program.getUniform d (freshProgram pid vs fs) n₁).2.1 n₁
      = ((Program.getUniform d (freshProgram pid vs fs) n₁).1,
         (Program.getUniform d (freshProgram pid vs fs) n₁).2.1, []) ∧
    (Program.getUniform d (Program.getUniform d (freshProgram pid vs fs) n₁).2.1 n₂).2.2
      = [.getUniformLocation pid n₂.content] ∧
    (Program.getUniform d (Program.getUniform d (freshProgram pid vs fs) n₁).2.1 n₂).2.1.uniforms
      = [(n₁, d.uniformLoc pid n₁.content), (n₂, d.uniformLoc pid n₂.content)] := by
  refine ⟨?_, ?_, ?_, ?_, ?_, ?_, ?_, ?_⟩ <;>
    simp [Program.getAttrib, Program.addAttrib, Program.getUniform,
          Program.addUniform, freshProgram, findSlot, setSlot, haddr]

/-- Concrete run of the pointer-keying theorem: two pointers at addresses
100 and 200 both holding the text "alpha". -/
theorem cache_keyed_by_pointer_witness :
    (Program.getAttrib okDriver (freshProgram 7 8 9) ⟨100, "alpha"⟩).2.2
      = [.getAttribLocation 7 "alpha"] ∧
    Program.getAttrib okDriver
        (Program.getAttrib okDriver (freshProgram 7 8 9) ⟨100, "alpha"⟩).2.1 ⟨100, "alpha"⟩
      = ((Program.getAttrib okDriver (freshProgram 7 8 9) ⟨100, "alpha"⟩).1,
         (Program.getAttrib okDriver (freshProgram 7 8 9) ⟨100, "alpha"⟩).2.1, []) ∧
    (Program.getAttrib okDriver
        (Program.getAttrib okDriver (freshProgram 7 8 9) ⟨100, "alpha"⟩).2.1 ⟨200, "alpha"⟩).2.2
      = [.getAttribLocation 7 "alpha"] ∧
    (Program.getAttrib okDriver
        (Program.getAttrib okDriver (freshProgram 7 8 9) ⟨100, "alpha"⟩).2.1 ⟨200, "alpha"⟩).2.1.attributes
      = [(⟨100, "alpha"⟩, okDriver.attribLoc 7 "alpha"),
         (⟨200, "alpha"⟩, okDriver.attribLoc 7 "alpha")] ∧
    (Program.getUniform okDriver (freshProgram 7 8 9) ⟨100, "alpha"⟩).2.2
      = [.getUniformLocation 7 "alpha"] ∧
    Program.getUniform okDriver
        (Program.getUniform okDriver (freshProgram 7 8 9) ⟨100, "alpha"⟩).2.1 ⟨100, "alpha"⟩
      = ((Program.getUniform okDriver (freshProgram 7 8 9) ⟨100, "alpha"⟩).1,
         (Program.getUniform okDriver (freshProgram 7 8 9) ⟨100, "alpha"⟩).2.1, []) ∧
    (Program.getUniform okDriver
        (Program.getUniform okDriver (freshProgram 7 8 9) ⟨100, "alpha"⟩).2.1 ⟨200, "alpha"⟩).2.2
      = [.getUniformLocation 7 "alpha"] ∧
    (Program.getUniform okDriver
        (Program.getUniform okDriver (freshProgram 7 8 9) ⟨100, "alpha"⟩).2.1 ⟨200, "alpha"⟩).2.1.uniforms
      = [(⟨100, "alpha"⟩, okDriver.uniformLoc 7 "alpha"),
         (⟨200, "alpha"⟩, okDriver.uniformLoc 7 "alpha")] :=
  cache_keyed_by_pointer okDriver 7 8 9 ⟨100, "alpha"⟩ ⟨200, "alpha"⟩ (by decide) rfl

/-- C3: DrawColorProgram construction resolves exactly the attribute
position, then the attribute color, then the uniforms projection, modelView
and transform (one driver query each, all landing in the caches, with the
position, color and transform slots in the header's fields); its use enables
the vertex-attribute arrays for position and color after the base bind, and
its remove disables exactly those two arrays. -/
theorem drawColorProgram_slots_use_remove (d : Driver) (pid vs fs : Nat) :
    (DrawColorProgram.construct d (freshProgram pid vs fs)).2
      = [.getAttribLocation pid "position", .getAttribLocation pid "color",
         .getUniformLocation pid "projection", .getUniformLocation pid "modelView",
         .getUniformLocation pid "transform"] ∧
    (DrawColorProgram.construct d (freshProgram pid vs fs)).1.position
      = d.attribLoc pid "position" ∧
    (DrawColorProgram.construct d (freshProgram pid vs fs)).1.color
      = d.attribLoc pid "color" ∧
    (DrawColorProgram.construct d (freshProgram pid vs fs)).1.transform
      = d.uniformLoc pid "transform" ∧
    findSlot (DrawColorProgram.construct d (freshProgram pid vs fs)).1.base.attributes
        positionName.addr = some (d.attribLoc pid "position") ∧
    findSlot (DrawColorProgram.construct d (freshProgram pid vs fs)).1.base.attributes
        colorName.addr = some (d.attribLoc pid "color") ∧
    findSlot (DrawColorProgram.construct d (freshProgram pid vs fs)).1.base.uniforms
        projectionName.addr = some (d.uniformLoc pid "projection") ∧
    findSlot (DrawColorProgram.construct d (freshProgram pid vs fs)).1.base.uniforms
        modelViewName.addr = some (d.uniformLoc pid "modelView") ∧
    findSlot (DrawColorProgram.construct d (freshProgram pid vs fs)).1.base.uniforms
        transformName.addr = some (d.uniformLoc pid "transform") ∧
    (DrawColorProgram.use (DrawColorProgram.construct d (freshProgram pid vs fs)).1).2
      = [.useProgram pid,
         .enableVertexAttribArray (d.attribLoc pid "position"),
         .enableVertexAttribArray (d.attribLoc pid "color")] ∧
    (DrawColorProgram.remove (DrawColorProgram.construct d (freshProgram pid vs fs)).1).2
      = [.disableVertexAttribArray (d.attribLoc pid "position"),
         .disableVertexAttribArray (d.attribLoc pid "color")] := by
  refine ⟨rfl, rfl, rfl, rfl, rfl, rfl, rfl, rfl, rfl, rfl, rfl⟩

/-- C4: for a program not in use, use() issues exactly the one bind call and
sets the flag; a second use() while in use leaves isInUse true, changes
nothing and issues no further call, so two consecutive use() calls bind
exactly once. -/
theorem use_idempotent (p : Program) (h : p.mUse = false) :
    (Program.use p).2 = [.useProgram p.id] ∧
    (Program.use p).1.isInUse = true ∧
    Program.use (Program.use p).1 = ((Program.use p).1, []) ∧
    (Program.use p).2 ++ (Program.use (Program.use p).1).2 = [.useProgram p.id] := by
  simp [Program.use, Program.isInUse, h]

/-- Concrete run of use() idempotence on a freshly constructed program. -/
theorem use_idempotent_witness :
    (Program.use (freshProgram 1 2 3)).2 = [.useProgram 1] ∧
    (Program.use (freshProgram 1 2 3)).1.isInUse = true ∧
    Program.use (Program.use (freshProgram 1 2 3)).1
      = ((Program.use (freshProgram 1 2 3)).1, []) ∧
    (Program.use (freshProgram 1 2 3)).2
        ++ (Program.use (Program.use (freshProgram 1 2 3)).1).2
      = [.useProgram 1] :=
  use_idempotent (freshProgram 1 2 3) rfl

theorem compile_ok_mUse (d : Driver) (v f : String) (p : Program)
    (calls : List GLCall) (h : Program.compile d v f = .ok (p, calls)) :
    p.mUse = false := by
  unfold Program.compile at h
  split at h
  · simp at h
  · split at h
    · simp at h
    · split at h
      · simp at h
      · simp only [Except.ok.injEq, Prod.mk.injEq] at h
        obtain ⟨h₁, -⟩ := h
        subst h₁
        rfl

/-- C5: isInUse is false right after a successful construction, true after
use(), false again after a subsequent remove(), and is the bare read of the
stored flag (a pure query issuing no driver call by its very type). -/
theorem isInUse_lifecycle (d : Driver) (v f : String) (p : Program)
    (calls : List GLCall) (h : Program.compile d v f = .ok (p, calls)) :
    p.isInUse = false ∧
    (Program.use p).1.isInUse = true ∧
    (Program.remove (Program.use p).1).1.isInUse = false ∧
    (∀ q : Program, Program.isInUse q = q.mUse) := by
  have hm := compile_ok_mUse d v f p calls h
  exact ⟨hm, by simp [Program.use, Program.isInUse, hm],
         by simp [Program.use, Program.remove, Program.isInUse],
         fun q => rfl⟩

/-- Concrete lifecycle run on a program compiled through the all-success
driver. -/
theorem isInUse_lifecycle_witness :
    (freshProgram 9 1 2).isInUse = false ∧
    (Program.use (freshProgram 9 1 2)).1.isInUse = true ∧
    (Program.remove (Program.use (freshProgram 9 1 2)).1).1.isInUse = false ∧
    (∀ q : Program, Program.isInUse q = q.mUse) :=
  isInUse_lifecycle okDriver "v" "f" (freshProgram 9 1 2)
    [.compileShader .vertex "v", .compileShader .fragment "f", .linkProgram 1 2]
    rfl

/-- C6: the base remove() only clears the in-use flag: it issues no driver
call (in particular no unbind) and leaves the program handle, both shader
handles and both slot caches unchanged. -/
theorem remove_only_clears_flag (p : Program) :
    (Program.remove p).2 = [] ∧
    (Program.remove p).1.id = p.id ∧
    (Program.remove p).1.vertexShader = p.vertexShader ∧
    (Program.remove p).1.fragmentShader = p.fragmentShader ∧
    (Program.remove p).1.attributes = p.attributes ∧
    (Program.remove p).1.uniforms = p.uniforms ∧
    (Program.remove p).1.mUse = false :=
  ⟨rfl, rfl, rfl, rfl, rfl, rfl, rfl⟩

/-- A concrete driver whose location queries all return the not-found
sentinel -1, as for names optimized out of the compiled shader. -/
def sentinelDriver : Driver where
  compileResult := fun stage _ =>
    .ok (match stage with | .vertex => 1 | .fragment => 2)
  linkResult := fun _ _ => .ok 9
  attribLoc := fun _ _ => -1
  uniformLoc := fun _ _ => -1

/-- A concrete driver on which the vertex stage fails to compile. -/
def failVertexDriver : Driver where
  compileResult := fun stage _ =>
    match stage with
    | .vertex => .error "vertex error"
    | .fragment => .ok 2
  linkResult := fun _ _ => .ok 9
  attribLoc := fun _ _ => 0
  uniformLoc := fun _ _ => 0

/-- C7: when the driver reports a name as absent (sentinel -1) and the name
is not yet cached, getAttrib and getUniform do not fail: they return the
sentinel, store it in the cache under the name exactly like a valid slot
(the same setSlot update), and a subsequent lookup hits that cache entry
with no further driver query. -/
theorem absent_name_sentinel (d : Driver) (p : Program) (n : CharPtr)
    (hA : d.attribLoc p.id n.content = -1)
    (hU : d.uniformLoc p.id n.content = -1)
    (hcA : findSlot p.attributes n.addr = none)
    (hcU : findSlot p.uniforms n.addr = none) :
    (Program.getAttrib d p n).1 = -1 ∧
    (Program.getAttrib d p n).2.1.attributes = setSlot p.attributes n (-1) ∧
    Program.getAttrib d (Program.getAttrib d p n).2.1 n
      = (-1, (Program.getAttrib d p n).2.1, []) ∧
    (Program.getUniform d p n).1 = -1 ∧
    (Program.getUniform d p n).2.1.uniforms = setSlot p.uniforms n (-1) ∧
    Program.getUniform d (Program.getUniform d p n).2.1 n
      = (-1, (Program.getUniform d p n).2.1, []) := by
  refine ⟨?_, ?_, ?_, ?_, ?_, ?_⟩ <;>
    simp [Program.getAttrib, Program.addAttrib, Program.getUniform,
          Program.addUniform, hA, hU, hcA, hcU, findSlot_setSlot]

/-- Concrete run of sentinel handling: an uncached name on a fresh program
with a driver resolving nothing. -/
theorem absent_name_sentinel_witness :
    (Program.getAttrib sentinelDriver (freshProgram 5 1 2) ⟨42, "unused"⟩).1 = -1 ∧
    (Program.getAttrib sentinelDriver (freshProgram 5 1 2) ⟨42, "unused"⟩).2.1.attributes
      = setSlot (freshProgram 5 1 2).attributes ⟨42, "unused"⟩ (-1) ∧
    Program.getAttrib sentinelDriver
        (Program.getAttrib sentinelDriver (freshProgram 5 1 2) ⟨42, "unused"⟩).2.1 ⟨42, "unused"⟩
      = (-1, (Program.getAttrib sentinelDriver (freshProgram 5 1 2) ⟨42, "unused"⟩).2.1, []) ∧
    (Program.getUniform sentinelDriver (freshProgram 5 1 2) ⟨42, "unused"⟩).1 = -1 ∧
    (Program.getUniform sentinelDriver (freshProgram 5 1 2) ⟨42, "unused"⟩).2.1.uniforms
      = setSlot (freshProgram 5 1 2).uniforms ⟨42, "unused"⟩ (-1) ∧
    Program.getUniform sentinelDriver
        (Program.getUniform sentinelDriver (freshProgram 5 1 2) ⟨42, "unused"⟩).2.1 ⟨42, "unused"⟩
      = (-1, (Program.getUniform sentinelDriver (freshProgram 5 1 2) ⟨42, "unused"⟩).2.1, []) :=
  absent_name_sentinel sentinelDriver (freshProgram 5 1 2) ⟨42, "unused"⟩
    rfl rfl rfl rfl

/-- C8 (amended): along the variant chain, DrawTextureProgram and
DrawLinearGradientProgram each resolve a strict superset of
DrawColorProgram's slot names with no collisions, while DrawTextProgram
resolves exactly DrawTextureProgram's set (identical, not strictly larger):
DrawColorProgram resolves position, color, projection, modelView,
transform; DrawTextureProgram those plus texCoords and sampler (strictly
more, all distinct); DrawTextProgram exactly DrawTextureProgram's set;
DrawLinearGradientProgram the color set plus screenSpace, start, gradient,
gradientLength, sampler (strictly more, all distinct). -/
theorem variant_slot_superset (d : Driver) (pid vs fs : Nat) :
    resolvedNames (DrawColorProgram.construct d (freshProgram pid vs fs)).1.base
      = ["position", "color", "projection", "modelView", "transform"] ∧
    resolvedNames (DrawTextureProgram.construct d (freshProgram pid vs fs)).1.toColor.base
      = ["position", "color", "texCoords",
         "projection", "modelView", "transform", "sampler"] ∧
    resolvedNames (DrawTextProgram.construct d (freshProgram pid vs fs)).1.toColor.base
      = resolvedNames (DrawTextureProgram.construct d (freshProgram pid vs fs)).1.toColor.base ∧
    resolvedNames (DrawLinearGradientProgram.construct d (freshProgram pid vs fs)).1.toColor.base
      = ["position", "color", "projection", "modelView", "transform",
         "screenSpace", "start", "gradient", "gradientLength", "sampler"] ∧
    resolvedNames (DrawColorProgram.construct d (freshProgram pid vs fs)).1.base
      ⊆ resolvedNames (DrawTextureProgram.construct d (freshProgram pid vs fs)).1.toColor.base ∧
    (resolvedNames (DrawTextureProgram.construct d (freshProgram pid vs fs)).1.toColor.base).Nodup ∧
    (resolvedNames (DrawColorProgram.construct d (freshProgram pid vs fs)).1.base).length
      < (resolvedNames (DrawTextureProgram.construct d (freshProgram pid vs fs)).1.toColor.base).length ∧
    "sampler" ∈ resolvedNames (DrawTextureProgram.construct d (freshProgram pid vs fs)).1.toColor.base ∧
    "texCoords" ∈ resolvedNames (DrawTextureProgram.construct d (freshProgram pid vs fs)).1.toColor.base ∧
    resolvedNames (DrawColorProgram.construct d (freshProgram pid vs fs)).1.base
      ⊆ resolvedNames (DrawLinearGradientProgram.construct d (freshProgram pid vs fs)).1.toColor.base ∧
    (resolvedNames (DrawLinearGradientProgram.construct d (freshProgram pid vs fs)).1.toColor.base).Nodup ∧
    (resolvedNames (DrawColorProgram.construct d (freshProgram pid vs fs)).1.base).length
      < (resolvedNames (DrawLinearGradientProgram.construct d (freshProgram pid vs fs)).1.toColor.base).length := by
  have hc : resolvedNames (DrawColorProgram.construct d (freshProgram pid vs fs)).1.base
      = ["position", "color", "projection", "modelView", "transform"] := rfl
  have ht : resolvedNames
        (DrawTextureProgram.construct d (freshProgram pid vs fs)).1.toColor.base
      = ["position", "color", "texCoords",
         "projection", "modelView", "transform", "sampler"] := rfl
  have hg : resolvedNames
        (DrawLinearGradientProgram.construct d (freshProgram pid vs fs)).1.toColor.base
      = ["position", "color", "projection", "modelView", "transform",
         "screenSpace", "start", "gradient", "gradientLength", "sampler"] := rfl
  refine ⟨hc, ht, rfl, hg, ?_, ?_, ?_, ?_, ?_, ?_, ?_, ?_⟩ <;>
    simp only [hc, ht, hg] <;> decide

/-- C8 counterexample: the claim's strict-superset assertion fails at the
DrawTextProgram level.  On a concrete driver and fresh program, the slot
names DrawTextProgram's construction resolves are exactly those of its
parent DrawTextureProgram — equal sets, so no name resolved by the child is
missing from the parent and the child's set is not strictly larger. -/
theorem text_slots_not_strict_superset :
    resolvedNames (DrawTextProgram.construct okDriver (freshProgram 7 1 2)).1.toColor.base
      = resolvedNames (DrawTextureProgram.construct okDriver (freshProgram 7 1 2)).1.toColor.base ∧
    (¬ ∃ n, n ∈ resolvedNames
            (DrawTextProgram.construct okDriver (freshProgram 7 1 2)).1.toColor.base ∧
        n ∉ resolvedNames
            (DrawTextureProgram.construct okDriver (freshProgram 7 1 2)).1.toColor.base) ∧
    ¬ (resolvedNames
          (DrawTextureProgram.construct okDriver (freshProgram 7 1 2)).1.toColor.base).length
        < (resolvedNames
            (DrawTextProgram.construct okDriver (freshProgram 7 1 2)).1.toColor.base).length :=
  ⟨rfl, fun ⟨_, hin, hout⟩ => hout hin, by decide⟩

/-- C9: construction compiles each stage, failing with ShaderCompileError
carrying the failing stage and the driver log; only when both stages
compile does it link, failing with ShaderLinkError and the link log; on
success it yields a program holding the driver-returned handles, empty
caches and isInUse false; a failed construction yields only the error, so
the failed instance can never be transitioned to in-use. -/
theorem compile_stage_link_errors (d : Driver) (v f : String) :
    (∀ log, d.compileResult .vertex v = .error log →
        Program.compile d v f = .error (.shaderCompileError .vertex log)) ∧
    (∀ vs log, d.compileResult .vertex v = .ok vs →
        d.compileResult .fragment f = .error log →
        Program.compile d v f = .error (.shaderCompileError .fragment log)) ∧
    (∀ vs fs log, d.compileResult .vertex v = .ok vs →
        d.compileResult .fragment f = .ok fs →
        d.linkResult vs fs = .error log →
        Program.compile d v f = .error (.shaderLinkError log)) ∧
    (∀ vs fs pid, d.compileResult .vertex v = .ok vs →
        d.compileResult .fragment f = .ok fs →
        d.linkResult vs fs = .ok pid →
        Program.compile d v f
          = .ok (freshProgram pid vs fs,
                 [.compileShader .vertex v, .compileShader .fragment f,
                  .linkProgram vs fs]) ∧
        (freshProgram pid vs fs).isInUse = false) ∧
    (∀ e, Program.compile d v f = .error e →
        ∀ p calls, Program.compile d v f ≠ .ok (p, calls)) := by
  refine ⟨?_, ?_, ?_, ?_, ?_⟩
  · intro log h
    simp [Program.compile, h]
  · intro vs log h₁ h₂
    simp [Program.compile, h₁, h₂]
  · intro vs fs log h₁ h₂ h₃
    simp [Program.compile, h₁, h₂, h₃]
  · intro vs fs pid h₁ h₂ h₃
    simp [Program.compile, h₁, h₂, h₃, freshProgram, Program.isInUse]
  · intro e he p calls hok
    rw [he] at hok
    exact absurd hok (by simp)

/-- Concrete runs of construction: a vertex-stage failure surfaces as a
vertex ShaderCompileError; an all-success driver yields the handles and a
not-in-use program. -/
theorem compile_stage_link_errors_witness :
    Program.compile failVertexDriver "v" "f"
      = .error (.shaderCompileError .vertex "vertex error") ∧
    (Program.compile okDriver "v" "f"
      = .ok (freshProgram 9 1 2,
             [.compileShader .vertex "v", .compileShader .fragment "f",
              .linkProgram 1 2]) ∧
     (freshProgram 9 1 2).isInUse = false) :=
  ⟨(compile_stage_link_errors failVertexDriver "v" "f").1 "vertex error" rfl,
   (compile_stage_link_errors okDriver "v" "f").2.2.2.1 1 2 9 rfl rfl rfl⟩

/-- C10: with further owners remaining, a release only drops the count and
issues no driver call; the last release destroys the object, and across the
two-owner scenario each underlying handle is deleted exactly once (a
release that returns none leaves no shared handle, so no further release —
hence no second delete — is possible). -/
theorem shared_ownership_single_delete (p : Program) (n : Nat)
    (h : p.vertexShader ≠ p.fragmentShader) :
    SharedProgram.release ⟨p, n + 2⟩ = (some ⟨p, n + 1⟩, []) ∧
    SharedProgram.release ⟨p, 1⟩
      = (none, [.deleteShader p.vertexShader, .deleteShader p.fragmentShader,
                .deleteProgram p.id]) ∧
    (SharedProgram.release ⟨p, 2⟩).2 = [] ∧
    ((SharedProgram.release ⟨p, 2⟩).2 ++ (SharedProgram.release ⟨p, 1⟩).2).count
        (.deleteShader p.vertexShader) = 1 ∧
    ((SharedProgram.release ⟨p, 2⟩).2 ++ (SharedProgram.release ⟨p, 1⟩).2).count
        (.deleteShader p.fragmentShader) = 1 ∧
    ((SharedProgram.release ⟨p, 2⟩).2 ++ (SharedProgram.release ⟨p, 1⟩).2).count
        (.deleteProgram p.id) = 1 := by
  have h2 : ¬(n + 2 ≤ 1) := by omega
  refine ⟨?_, rfl, ?_, ?_, ?_, ?_⟩ <;>
    simp [SharedProgram.release, Program.destroy, h2, List.count_cons, h, Ne.symm h]

/-- Concrete two-owner run with distinct shader handles 1 and 2 and program
handle 9. -/
theorem shared_ownership_single_delete_witness :
    SharedProgram.release ⟨freshProgram 9 1 2, 0 + 2⟩
      = (some ⟨freshProgram 9 1 2, 0 + 1⟩, []) ∧
    SharedProgram.release ⟨freshProgram 9 1 2, 1⟩
      = (none, [.deleteShader 1, .deleteShader 2, .deleteProgram 9]) ∧
    (SharedProgram.release ⟨freshProgram 9 1 2, 2⟩).2 = [] ∧
    ((SharedProgram.release ⟨freshProgram 9 1 2, 2⟩).2
        ++ (SharedProgram.release ⟨freshProgram 9 1 2, 1⟩).2).count (.deleteShader 1) = 1 ∧
    ((SharedProgram.release ⟨freshProgram 9 1 2, 2⟩).2
        ++ (SharedProgram.release ⟨freshProgram 9 1 2, 1⟩).2).count (.deleteShader 2) = 1 ∧
    ((SharedProgram.release ⟨freshProgram 9 1 2, 2⟩).2
        ++ (SharedProgram.release ⟨freshProgram 9 1 2, 1⟩).2).count (.deleteProgram 9) = 1 :=
  shared_ownership_single_delete (freshProgram 9 1 2) 0 (by decide)

end Uirenderer
